import Mathlib

/-!
Shallow embedding of `src/server.go` from `postgres-external-provider`:
a small HTTP service that provisions and deprovisions Postgres databases
and owning roles. The database is modelled as an oracle
`Stmt → Except String Unit` deciding the outcome of each SQL statement;
each handler is a pure function returning its HTTP response together with
the ordered trace of SQL statements it executed.
-/

namespace PgProvider

/-- A SQL statement as handed to `db.Exec`: the statement text plus the
positional parameters (`$1`, ...) passed alongside it. -/
structure Stmt where
  text : String
  args : List String
deriving DecidableEq, Repr

/-- Resource returned on a successful create (`resource.Resource` in Go):
an identifier plus an environment bundle of connection parameters.
The Go `map[string]string` is modelled as an association list in the
order of the map literal at `src/server.go:112-119`. -/
structure Resource where
  id : String
  env : List (String × String)
deriving DecidableEq, Repr

/-- The HTTP responses the three handlers can produce:
`httphelper.JSON(w, 200, r)`, a bare `w.WriteHeader(200)`,
`httphelper.ValidationError` (a 400-class error naming a field), and
`httphelper.Error` (a generic 500-class error wrapping the SQL error). -/
inductive Response where
  | ok200Json (r : Resource)
  | ok200Empty
  | validationError (field msg : String)
  | internalError (e : String)
deriving DecidableEq, Repr

/-- The `disallowConns` SQL constant of `src/server.go:21`, verbatim. -/
def disallowConns : String :=
  "UPDATE pg_database SET datallowconn = FALSE WHERE datname = $1"

/-- The `disconnectConns` SQL constant of `src/server.go:22-26`, verbatim:
it terminates every backend connected to the target database except the
backend running the statement itself (`pid <> pg_backend_pid()`). -/
def disconnectConns : String :=
  "\nSELECT pg_terminate_backend(pg_stat_activity.pid)\nFROM pg_stat_activity\nWHERE pg_stat_activity.datname = $1\n  AND pid <> pg_backend_pid();"

/-- `CREATE USER "<u>" WITH PASSWORD '<p>'` as built by `fmt.Sprintf` at
`src/server.go:94`. -/
def createUserStmt (u p : String) : Stmt :=
  ⟨"CREATE USER \"" ++ u ++ "\" WITH PASSWORD \x27" ++ p ++ "\x27", []⟩

/-- `GRANT "<u>" TO "<serviceUser>"` as built at `src/server.go:98`. -/
def grantStmt (u serviceUser : String) : Stmt :=
  ⟨"GRANT \"" ++ u ++ "\" TO \"" ++ serviceUser ++ "\"", []⟩

/-- `CREATE DATABASE "<d>" WITH OWNER = "<u>"` as built at `src/server.go:103`. -/
def createDbStmt (d u : String) : Stmt :=
  ⟨"CREATE DATABASE \"" ++ d ++ "\" WITH OWNER = \"" ++ u ++ "\"", []⟩

/-- `DROP USER "<u>"` as built at `src/server.go:99,104,147`. -/
def dropUserStmt (u : String) : Stmt :=
  ⟨"DROP USER \"" ++ u ++ "\"", []⟩

/-- `DROP DATABASE "<d>"` as built at `src/server.go:142`. -/
def dropDbStmt (d : String) : Stmt :=
  ⟨"DROP DATABASE \"" ++ d ++ "\"", []⟩

/-- The package-level configuration assembled by the `var` block and `init`
of `src/server.go:29-51`. -/
structure Config where
  serviceUser : String
  serviceHost : String
  servicePass : String
  servicePgSSL : String
  systemPgsql : String
deriving DecidableEq, Repr

/-- The `init` function of `src/server.go:35-51`, taking the five
`os.Getenv` results (Go's `os.Getenv` returns `""` for an unset variable,
and `init` only ever compares against `""`, so the environment is modelled
as the five strings directly). A `panic` is modelled as `Except.error`
carrying the panic message. -/
def initConfig (pguser pghost pgpassword pgsslmode flynnPostgres : String) :
    Except String Config :=
  let serviceUser := if pguser = "" then "flynn" else pguser
  if pghost = "" then
    Except.error "PGHOST must be set to the target database server hostname"
  else if pgpassword = "" then
    Except.error "PGPASSWORD must be set to the database admin user password"
  else
    let servicePgSSL := if pgsslmode = "" then "" else pgsslmode
    let systemPgsql := if flynnPostgres = "" then "postgres" else flynnPostgres
    Except.ok
      { serviceUser := serviceUser
        serviceHost := pghost
        servicePass := pgpassword
        servicePgSSL := servicePgSSL
        systemPgsql := systemPgsql }

/-- The listen-port computation of `src/server.go:77-80`. -/
def listenPort (port : String) : String :=
  if port = "" then "3000" else port

/-- The `tls.Config` literal of `src/server.go:63`. -/
structure TLSConfig where
  serverName : String
  insecureSkipVerify : Bool
deriving DecidableEq, Repr

/-- The `pgx.ConnConfig` literal of `src/server.go:58-64`. -/
structure ConnConfig where
  host : String
  user : String
  password : String
  database : String
  tlsConfig : TLSConfig
deriving DecidableEq, Repr

/-- The administrative connection configuration built in `main`
(`src/server.go:57-65`) from the package-level configuration. -/
def mkConnConfig (cfg : Config) : ConnConfig :=
  { host := cfg.serviceHost
    user := cfg.serviceUser
    password := cfg.servicePass
    database := "postgres"
    tlsConfig := { serverName := cfg.serviceHost, insecureSkipVerify := true } }

/-- The `createDatabase` handler of `src/server.go:91-121`. The three
random hex tokens (`random.Hex(16)` each, line 92) are taken as inputs
`username password database`; `db` is the statement oracle. Returns the
HTTP response and the ordered trace of every statement handed to
`db.Exec`, including the best-effort `DROP USER` whose result the Go code
discards (lines 99 and 104). -/
def createDatabase (db : Stmt → Except String Unit) (cfg : Config)
    (username password database : String) : Response × List Stmt :=
  let s1 := createUserStmt username password
  match db s1 with
  | Except.error e => (Response.internalError e, [s1])
  | Except.ok _ =>
    let s2 := grantStmt username cfg.serviceUser
    match db s2 with
    | Except.error e =>
      (Response.internalError e, [s1, s2, dropUserStmt username])
    | Except.ok _ =>
      let s3 := createDbStmt database username
      match db s3 with
      | Except.error e =>
        (Response.internalError e, [s1, s2, s3, dropUserStmt username])
      | Except.ok _ =>
        let url := "postgres://" ++ username ++ ":" ++ password ++ "@" ++
          cfg.serviceHost ++ ":5432/" ++ database
        (Response.ok200Json
          { id := "/databases/" ++ username ++ ":" ++ database
            env :=
              [("FLYNN_POSTGRES", cfg.systemPgsql),
               ("PGHOST", cfg.serviceHost),
               ("PGUSER", username),
               ("PGPASSWORD", password),
               ("PGDATABASE", database),
               ("DATABASE_URL", url)] },
         [s1, s2, s3])

/-- Go's `strings.TrimPrefix` on character lists: consume `p` from the
front of `s`; `none` when `p` is not a prefix. -/
def dropPre : List Char → List Char → Option (List Char)
  | [], s => some s
  | _ :: _, [] => none
  | p :: ps, c :: cs => if c = p then dropPre ps cs else none

/-- Go's `strings.TrimPrefix s p`: `s` without the leading `p` when `p`
is a prefix of `s`, otherwise `s` unchanged. -/
def goTrimPre (s p : String) : String :=
  match dropPre p.data s.data with
  | some rest => ⟨rest⟩
  | none => s

/-- Split a character list at the first occurrence of `sep`:
`some (before, after)` when `sep` occurs, `none` otherwise. -/
def splitFirstAt (sep : Char) : List Char → Option (List Char × List Char)
  | [] => none
  | c :: cs =>
    if c = sep then some ([], cs)
    else
      match splitFirstAt sep cs with
      | none => none
      | some (a, b) => some (c :: a, b)

/-- The colon character, written by code point. -/
def colonChar : Char := Char.ofNat 58

/-- The double-quote character, written by code point. -/
def dquoteChar : Char := Char.ofNat 34

/-- Go's `strings.SplitN(s, ":", 2)`: the part before the first `:` and
the rest, or the single-element list `[s]` when `s` has no `:`
(in particular `[""]` for the empty string). -/
def goSplitN2 (s : String) : List String :=
  match splitFirstAt colonChar s.data with
  | none => [s]
  | some (a, b) => [⟨a⟩, ⟨b⟩]

/-- The identifier validation of `src/server.go:124-128`: trim the
optional `/databases/` prefix, split on the first `:`, and require two
parts with a non-empty second (database) part. Returns
`some (role, database)` exactly when the Go code proceeds past the
`len(id) != 2 || id[1] == ""` check. -/
def dropParse (idv : String) : Option (String × String) :=
  match goSplitN2 (goTrimPre idv "/databases/") with
  | [role, database] =>
    if database = "" then none else some (role, database)
  | _ => none

/-- The `dropDatabase` handler of `src/server.go:123-153`: validate the
identifier, then run the four statements in order — disallow connections,
terminate other backends, `DROP DATABASE`, `DROP USER` — stopping at the
first failure. Returns the response and the trace of executed statements. -/
def dropDatabase (db : Stmt → Except String Unit) (idv : String) :
    Response × List Stmt :=
  match dropParse idv with
  | none => (Response.validationError "id" "is invalid", [])
  | some (role, database) =>
    let s1 : Stmt := ⟨disallowConns, [database]⟩
    match db s1 with
    | Except.error e => (Response.internalError e, [s1])
    | Except.ok _ =>
      let s2 : Stmt := ⟨disconnectConns, [database]⟩
      match db s2 with
      | Except.error e => (Response.internalError e, [s1, s2])
      | Except.ok _ =>
        let s3 := dropDbStmt database
        match db s3 with
        | Except.error e => (Response.internalError e, [s1, s2, s3])
        | Except.ok _ =>
          let s4 := dropUserStmt role
          match db s4 with
          | Except.error e => (Response.internalError e, [s1, s2, s3, s4])
          | Except.ok _ => (Response.ok200Empty, [s1, s2, s3, s4])

/-- The `ping` handler of `src/server.go:155-161`: one `SELECT 1`. -/
def ping (db : Stmt → Except String Unit) : Response × List Stmt :=
  let s : Stmt := ⟨"SELECT 1", []⟩
  match db s with
  | Except.error e => (Response.internalError e, [s])
  | Except.ok _ => (Response.ok200Empty, [s])

deriving instance DecidableEq for Except

/-- A database oracle on which every statement succeeds. -/
def allOk : Stmt → Except String Unit := fun _ => Except.ok ()

/-- A concrete configuration for witnesses. -/
def cfgW : Config :=
  { serviceUser := "flynn"
    serviceHost := "pg.example"
    servicePass := "secret"
    servicePgSSL := ""
    systemPgsql := "postgres" }

/-- A database oracle on which the `GRANT` of role `a1` fails and the
compensating `DROP USER "a1"` also fails, so that the witness shows the
cleanup error being ignored in favour of the original error. -/
def grantFailDb : Stmt → Except String Unit := fun s =>
  if s = grantStmt "a1" "flynn" then Except.error "grant failed"
  else if s = dropUserStmt "a1" then Except.error "drop also failed"
  else Except.ok ()

/-- The identifier carried by a 200-JSON response, if any. -/
def Response.idOf : Response → Option String
  | Response.ok200Json r => some r.id
  | _ => none

/-- A configuration with its stored (never read) SSL-mode field replaced. -/
def setSSL (cfg : Config) (s : String) : Config :=
  { cfg with servicePgSSL := s }

/-- Lower-case hexadecimal digit. -/
def isHexDigitChar (c : Char) : Bool :=
  "0123456789abcdef".data.contains c

/-- Modelled from the spec: `random.Hex(16)` (package
`github.com/flynn/flynn/pkg/random`, not under `src/`) returns the hex
encoding of 16 random bytes — "each a 16-byte random hex token" — i.e. a
32-character string of lower-case hexadecimal digits. This predicate
describes its possible outputs. -/
def isHexToken (s : String) : Bool :=
  s.length == 32 && s.data.all isHexDigitChar

/-- Read a SQL statement of the shape `KEYWORD "<ident>"<rest>` the way the
Postgres lexer delimits a (quote-free) quoted identifier: the characters
between the first double quote and the next one are the identifier, and
whatever follows that closing quote is further SQL text. -/
def sqlQuotedIdent (s : String) : Option (String × String) :=
  match splitFirstAt dquoteChar s.data with
  | none => none
  | some (_, rest) =>
    match splitFirstAt dquoteChar rest with
    | none => none
    | some (ident, tail) => some (⟨ident⟩, ⟨tail⟩)

/-- C1: in `createDatabase`, a failure of the `GRANT` (step 3) or of the
`CREATE DATABASE` (step 4) makes the handler execute a best-effort
`DROP USER` of the role created in step 1 — the drop appears in the trace
whatever `db` answers on it, so its error is ignored — and report the
original step's error (not the cleanup error) to the caller. -/
theorem create_failure_drops_role_and_reports_original_error
    (db : Stmt → Except String Unit) (cfg : Config) (u p d e : String)
    (h1 : db (createUserStmt u p) = Except.ok ()) :
    (db (grantStmt u cfg.serviceUser) = Except.error e →
      createDatabase db cfg u p d =
        (Response.internalError e,
         [createUserStmt u p, grantStmt u cfg.serviceUser, dropUserStmt u]))
    ∧ (db (grantStmt u cfg.serviceUser) = Except.ok () →
       db (createDbStmt d u) = Except.error e →
      createDatabase db cfg u p d =
        (Response.internalError e,
         [createUserStmt u p, grantStmt u cfg.serviceUser, createDbStmt d u,
          dropUserStmt u])) := by
  refine ⟨fun hg => ?_, fun hg hc => ?_⟩
  · simp [createDatabase, h1, hg]
  · simp [createDatabase, h1, hg, hc]

/-- Witness for C1: on `grantFailDb` the grant of role `a1` fails with
`grant failed` and the compensating drop itself fails, yet the handler
reports `grant failed` and the trace ends with the `DROP USER`. -/
theorem create_failure_drops_role_witness :
    createDatabase grantFailDb cfgW "a1" "pw" "d1" =
      (Response.internalError "grant failed",
       [createUserStmt "a1" "pw", grantStmt "a1" "flynn", dropUserStmt "a1"]) :=
  (create_failure_drops_role_and_reports_original_error grantFailDb cfgW
    "a1" "pw" "d1" "grant failed" (by decide)).1 (by decide)

/-- C3: for every identifier that passes drop validation, `dropDatabase`
executes exactly the four statements — disallow connections
(`datallowconn = FALSE`), terminate all other backends (the verbatim
`disconnectConns` query, whose `pid <> pg_backend_pid()` clause spares the
session running it), `DROP DATABASE`, `DROP USER` — in this order; a
failing statement stops the sequence and its error is reported. -/
theorem drop_runs_four_statements_in_order_stopping_on_error
    (db : Stmt → Except String Unit) (idv role database e : String)
    (hp : dropParse idv = some (role, database)) :
    (db ⟨disallowConns, [database]⟩ = Except.error e →
      dropDatabase db idv =
        (Response.internalError e, [⟨disallowConns, [database]⟩]))
    ∧ (db ⟨disallowConns, [database]⟩ = Except.ok () →
       db ⟨disconnectConns, [database]⟩ = Except.error e →
      dropDatabase db idv =
        (Response.internalError e,
         [⟨disallowConns, [database]⟩, ⟨disconnectConns, [database]⟩]))
    ∧ (db ⟨disallowConns, [database]⟩ = Except.ok () →
       db ⟨disconnectConns, [database]⟩ = Except.ok () →
       db (dropDbStmt database) = Except.error e →
      dropDatabase db idv =
        (Response.internalError e,
         [⟨disallowConns, [database]⟩, ⟨disconnectConns, [database]⟩,
          dropDbStmt database]))
    ∧ (db ⟨disallowConns, [database]⟩ = Except.ok () →
       db ⟨disconnectConns, [database]⟩ = Except.ok () →
       db (dropDbStmt database) = Except.ok () →
       db (dropUserStmt role) = Except.error e →
      dropDatabase db idv =
        (Response.internalError e,
         [⟨disallowConns, [database]⟩, ⟨disconnectConns, [database]⟩,
          dropDbStmt database, dropUserStmt role]))
    ∧ (db ⟨disallowConns, [database]⟩ = Except.ok () →
       db ⟨disconnectConns, [database]⟩ = Except.ok () →
       db (dropDbStmt database) = Except.ok () →
       db (dropUserStmt role) = Except.ok () →
      dropDatabase db idv =
        (Response.ok200Empty,
         [⟨disallowConns, [database]⟩, ⟨disconnectConns, [database]⟩,
          dropDbStmt database, dropUserStmt role])) := by
  refine ⟨fun k1 => ?_, fun h1 k2 => ?_, fun h1 h2 k3 => ?_,
    fun h1 h2 h3 k4 => ?_, fun h1 h2 h3 h4 => ?_⟩
  · simp [dropDatabase, hp, k1]
  · simp [dropDatabase, hp, h1, k2]
  · simp [dropDatabase, hp, h1, h2, k3]
  · simp [dropDatabase, hp, h1, h2, h3, k4]
  · simp [dropDatabase, hp, h1, h2, h3, h4]

/-- Witness for C3: on an all-succeeding oracle, dropping `r1:d1` runs the
four statements in order and answers 200. -/
theorem drop_runs_four_statements_witness :
    dropDatabase allOk "r1:d1" =
      (Response.ok200Empty,
       [⟨disallowConns, ["d1"]⟩, ⟨disconnectConns, ["d1"]⟩,
        dropDbStmt "d1", dropUserStmt "r1"]) :=
  (drop_runs_four_statements_in_order_stopping_on_error allOk "r1:d1"
    "r1" "d1" "e" (by decide)).2.2.2.2 rfl rfl rfl rfl

theorem string_data_append (a b : String) : (a ++ b).data = a.data ++ b.data := rfl

theorem dropParse_eq_none_iff (idv : String) :
    dropParse idv = none ↔
      splitFirstAt colonChar (goTrimPre idv "/databases/").data = none
      ∨ ∃ a, splitFirstAt colonChar (goTrimPre idv "/databases/").data
          = some (a, []) := by
  unfold dropParse goSplitN2
  cases h : splitFirstAt colonChar (goTrimPre idv "/databases/").data with
  | none => simp
  | some ab =>
    obtain ⟨a, b⟩ := ab
    cases b with
    | nil => simp
    | cons c cs => simp [String.ext_iff]

theorem dropDatabase_validation_iff_parse_none
    (db : Stmt → Except String Unit) (idv : String) :
    dropDatabase db idv = (Response.validationError "id" "is invalid", []) ↔
      dropParse idv = none := by
  cases hp : dropParse idv with
  | none => simp [dropDatabase, hp]
  | some rd =>
    obtain ⟨role, database⟩ := rd
    unfold dropDatabase
    rw [hp]
    cases h1 : db ⟨disallowConns, [database]⟩ with
    | error e => simp [h1]
    | ok u1 =>
      cases h2 : db ⟨disconnectConns, [database]⟩ with
      | error e => simp [h1, h2]
      | ok u2 =>
        cases h3 : db (dropDbStmt database) with
        | error e => simp [h1, h2, h3]
        | ok u3 =>
          cases h4 : db (dropUserStmt role) with
          | error e => simp [h1, h2, h3, h4]
          | ok u4 => simp [h1, h2, h3, h4]

/-- C2 counterexample: the identifier `:x` — empty role segment — is accepted
by the code's validation (`len(id) != 2 || id[1] == ""` never looks at
`id[0]`), and the drop operation proceeds to execute SQL, contradicting the
claim that an empty role segment yields a validation error and no SQL. -/
theorem drop_empty_role_accepted_counterexample :
    dropParse ":x" = some ("", "x")
    ∧ (dropDatabase allOk ":x").2 ≠ []
    ∧ (dropDatabase allOk ":x").1 ≠ Response.validationError "id" "is invalid" := by
  decide

/-- C2 amended: the drop operation returns the validation error with no SQL
executed exactly when the input identifier, after stripping the optional
`/databases/` prefix, either contains no `:` at all (including the empty
string) or has an empty segment after the first `:` (empty database
segment). An empty role segment alone is not rejected. -/
theorem drop_validation_error_iff_no_colon_or_empty_database
    (db : Stmt → Except String Unit) (idv : String) :
    dropDatabase db idv = (Response.validationError "id" "is invalid", []) ↔
      splitFirstAt colonChar (goTrimPre idv "/databases/").data = none
      ∨ ∃ a, splitFirstAt colonChar (goTrimPre idv "/databases/").data
          = some (a, []) :=
  (dropDatabase_validation_iff_parse_none db idv).trans (dropParse_eq_none_iff idv)

/-- C8: `ping` executes exactly one statement, `SELECT 1`, and answers
200 with an empty body exactly when that statement succeeds; a failure is
reported as the internal error wrapping the statement's error. -/
theorem ping_runs_single_select_one (db : Stmt → Except String Unit) :
    (ping db).2 = [⟨"SELECT 1", []⟩]
    ∧ (ping db).1 =
        (match db ⟨"SELECT 1", []⟩ with
         | Except.ok _ => Response.ok200Empty
         | Except.error e => Response.internalError e) := by
  unfold ping
  cases h : db ⟨"SELECT 1", []⟩ <;> simp [h]

/-- C4 counterexample: with generated tokens `aa` (role) and `cc` (database),
a successful create returns the identifier `/databases/aa:cc`, which is not
the bare composite `aa:cc` that the claim states. -/
theorem create_id_not_bare_composite_counterexample :
    (createDatabase allOk cfgW "aa" "bb" "cc").1.idOf = some "/databases/aa:cc"
    ∧ "/databases/aa:cc" ≠ "aa" ++ ":" ++ "cc" := by
  decide

/-- C4 amended: on every successful create, the returned identifier is
`/databases/role:database` — the composite `role:database` of the generated
role and database tokens behind the constant `/databases/` path-style
prefix. -/
theorem create_id_is_prefixed_role_colon_database
    (db : Stmt → Except String Unit) (cfg : Config) (u p d : String)
    (h1 : db (createUserStmt u p) = Except.ok ())
    (h2 : db (grantStmt u cfg.serviceUser) = Except.ok ())
    (h3 : db (createDbStmt d u) = Except.ok ()) :
    (createDatabase db cfg u p d).1.idOf
      = some ("/databases/" ++ u ++ ":" ++ d) := by
  simp [createDatabase, h1, h2, h3, Response.idOf]

/-- Witness for C4's amended theorem at a concrete all-succeeding run. -/
theorem create_id_is_prefixed_witness :
    (createDatabase allOk cfgW "a2" "p2" "d2").1.idOf
      = some ("/databases/" ++ "a2" ++ ":" ++ "d2") :=
  create_id_is_prefixed_role_colon_database allOk cfgW "a2" "p2" "d2"
    rfl rfl rfl

/-- C6: a successful create answers 200 with a JSON resource whose env
bundle is exactly the six keys `FLYNN_POSTGRES`, `PGHOST`, `PGUSER`,
`PGPASSWORD`, `PGDATABASE`, `DATABASE_URL`, where `PGUSER`, `PGPASSWORD`,
`PGDATABASE` are the three generated tokens, `PGHOST` is the configured
admin host, and `DATABASE_URL` is
`postgres://<user>:<password>@<host>:5432/<database>` assembled from those
same values. -/
theorem create_success_env_bundle
    (db : Stmt → Except String Unit) (cfg : Config) (u p d : String)
    (h1 : db (createUserStmt u p) = Except.ok ())
    (h2 : db (grantStmt u cfg.serviceUser) = Except.ok ())
    (h3 : db (createDbStmt d u) = Except.ok ()) :
    (createDatabase db cfg u p d).1 =
      Response.ok200Json
        { id := "/databases/" ++ u ++ ":" ++ d
          env :=
            [("FLYNN_POSTGRES", cfg.systemPgsql),
             ("PGHOST", cfg.serviceHost),
             ("PGUSER", u),
             ("PGPASSWORD", p),
             ("PGDATABASE", d),
             ("DATABASE_URL",
              "postgres://" ++ u ++ ":" ++ p ++ "@" ++ cfg.serviceHost
                ++ ":5432/" ++ d)] } := by
  simp [createDatabase, h1, h2, h3]

/-- Witness for C6 at a concrete all-succeeding run. -/
theorem create_success_env_bundle_witness :
    (createDatabase allOk cfgW "a3" "p3" "d3").1 =
      Response.ok200Json
        { id := "/databases/" ++ "a3" ++ ":" ++ "d3"
          env :=
            [("FLYNN_POSTGRES", cfgW.systemPgsql),
             ("PGHOST", cfgW.serviceHost),
             ("PGUSER", "a3"),
             ("PGPASSWORD", "p3"),
             ("PGDATABASE", "d3"),
             ("DATABASE_URL",
              "postgres://" ++ "a3" ++ ":" ++ "p3" ++ "@" ++ cfgW.serviceHost
                ++ ":5432/" ++ "d3")] } :=
  create_success_env_bundle allOk cfgW "a3" "p3" "d3" rfl rfl rfl

/-- C7: `init` panics when the host or the password environment variable is
empty or unset (host checked first); an unset admin user defaults to
`flynn`, an unset system-database identifier defaults to `postgres`, and an
unset `PORT` defaults to `3000`. -/
theorem startup_required_vars_and_defaults
    (pguser pghost pgpassword pgsslmode flynnPostgres port : String) :
    (pghost = "" →
      initConfig pguser pghost pgpassword pgsslmode flynnPostgres =
        Except.error "PGHOST must be set to the target database server hostname")
    ∧ (pghost ≠ "" → pgpassword = "" →
      initConfig pguser pghost pgpassword pgsslmode flynnPostgres =
        Except.error "PGPASSWORD must be set to the database admin user password")
    ∧ (pghost ≠ "" → pgpassword ≠ "" → pguser = "" →
      (initConfig pguser pghost pgpassword pgsslmode flynnPostgres).map
        Config.serviceUser = Except.ok "flynn")
    ∧ (pghost ≠ "" → pgpassword ≠ "" → flynnPostgres = "" →
      (initConfig pguser pghost pgpassword pgsslmode flynnPostgres).map
        Config.systemPgsql = Except.ok "postgres")
    ∧ (port = "" → listenPort port = "3000") := by
  refine ⟨fun hh => ?_, fun hh hp => ?_, fun hh hp hu => ?_,
    fun hh hp hf => ?_, fun hpt => ?_⟩
  · simp [initConfig, hh]
  · simp [initConfig, hh, hp]
  · simp [initConfig, hh, hp, hu, Except.map]
  · simp [initConfig, hh, hp, hf, Except.map]
  · simp [listenPort, hpt]

/-- Witness for C7: concrete unset variables trigger each branch. -/
theorem startup_required_vars_and_defaults_witness :
    initConfig "" "" "" "" "" =
      Except.error "PGHOST must be set to the target database server hostname"
    ∧ initConfig "" "h" "" "" "" =
      Except.error "PGPASSWORD must be set to the database admin user password"
    ∧ (initConfig "" "h" "pw" "" "").map Config.serviceUser = Except.ok "flynn"
    ∧ (initConfig "" "h" "pw" "" "").map Config.systemPgsql = Except.ok "postgres"
    ∧ listenPort "" = "3000" :=
  ⟨(startup_required_vars_and_defaults "" "" "" "" "" "").1 rfl,
   (startup_required_vars_and_defaults "" "h" "" "" "" "").2.1 (by decide) rfl,
   (startup_required_vars_and_defaults "" "h" "pw" "" "" "").2.2.1
     (by decide) (by decide) rfl,
   (startup_required_vars_and_defaults "" "h" "pw" "" "" "").2.2.2.1
     (by decide) (by decide) rfl,
   (startup_required_vars_and_defaults "" "h" "pw" "" "" "").2.2.2.2 rfl⟩

/-- C10: the SSL-mode environment variable never influences behaviour. The
`init` results for any two SSL-mode values agree once the stored — and
never read — field is projected away; the administrative connection
configuration and the create handler are invariant under changing that
field (the drop and ping handlers read no configuration at all); and the
connection's TLS configuration always has `insecureSkipVerify` set. -/
theorem sslmode_unused_and_tls_verification_disabled
    (pguser pghost pgpassword ssl1 ssl2 flynnPostgres : String)
    (cfg : Config) (s : String) (db : Stmt → Except String Unit)
    (u p d : String) :
    (initConfig pguser pghost pgpassword ssl1 flynnPostgres).map
        (fun c => setSSL c "")
      = (initConfig pguser pghost pgpassword ssl2 flynnPostgres).map
        (fun c => setSSL c "")
    ∧ mkConnConfig (setSSL cfg s) = mkConnConfig cfg
    ∧ createDatabase db (setSSL cfg s) u p d = createDatabase db cfg u p d
    ∧ (mkConnConfig cfg).tlsConfig.insecureSkipVerify = true := by
  refine ⟨?_, rfl, rfl, rfl⟩
  by_cases hh : pghost = "" <;> by_cases hp : pgpassword = "" <;>
    simp [initConfig, hh, hp, setSSL, Except.map]

theorem dropPre_append (p r : List Char) : dropPre p (p ++ r) = some r := by
  induction p with
  | nil => rfl
  | cons c cs ih => simp [dropPre, ih]

theorem splitFirstAt_append_cons (sep : Char) (a b : List Char)
    (h : sep ∉ a) : splitFirstAt sep (a ++ sep :: b) = some (a, b) := by
  induction a with
  | nil => simp [splitFirstAt]
  | cons c cs ih =>
    rw [List.mem_cons, not_or] at h
    have hc : ¬ c = sep := fun e => h.1 e.symm
    simp [splitFirstAt, hc, ih h.2]

theorem hexToken_no_colon (s : String) (h : isHexToken s = true) :
    colonChar ∉ s.data := by
  intro hm
  unfold isHexToken at h
  rw [Bool.and_eq_true] at h
  have h2 := (List.all_eq_true.mp h.2) _ hm
  exact absurd h2 (by decide)

theorem hexToken_ne_empty (s : String) (h : isHexToken s = true) :
    s ≠ "" := by
  intro he
  subst he
  exact absurd h (by decide)

theorem dropParse_prefixed (u d : String)
    (hu : colonChar ∉ u.data) (hd : d ≠ "") :
    dropParse ("/databases/" ++ u ++ ":" ++ d) = some (u, d) := by
  have hcolon : ":".data = [colonChar] := by decide
  have hdata : ("/databases/" ++ u ++ ":" ++ d).data
      = "/databases/".data ++ (u.data ++ colonChar :: d.data) := by
    rw [string_data_append, string_data_append, string_data_append, hcolon]
    simp
  have htrim : goTrimPre ("/databases/" ++ u ++ ":" ++ d) "/databases/"
      = ⟨u.data ++ colonChar :: d.data⟩ := by
    unfold goTrimPre
    rw [hdata, dropPre_append]
  have hsplit : goSplitN2 (⟨u.data ++ colonChar :: d.data⟩ : String)
      = [u, ⟨d.data⟩] := by
    unfold goSplitN2
    simp only [splitFirstAt_append_cons colonChar u.data d.data hu]
  unfold dropParse
  rw [htrim, hsplit]
  have hdd : (⟨d.data⟩ : String) = d := rfl
  simp [hdd, hd]

/-- C5: the identifier returned by a successful create, fed unchanged into
the drop validation, passes it, and the recovered role and database are
exactly the tokens that create generated: a create-then-drop round-trip
addresses the objects create made. -/
theorem create_then_drop_roundtrip
    (db : Stmt → Except String Unit) (cfg : Config) (u p d : String)
    (r : Resource)
    (hu : isHexToken u = true) (hd : isHexToken d = true)
    (hr : (createDatabase db cfg u p d).1 = Response.ok200Json r) :
    dropParse r.id = some (u, d) := by
  have hid : r.id = "/databases/" ++ u ++ ":" ++ d := by
    simp only [createDatabase] at hr
    cases h1 : db (createUserStmt u p) with
    | error e => rw [h1] at hr; simp at hr
    | ok u1 =>
      rw [h1] at hr
      cases h2 : db (grantStmt u cfg.serviceUser) with
      | error e => rw [h2] at hr; simp at hr
      | ok u2 =>
        rw [h2] at hr
        cases h3 : db (createDbStmt d u) with
        | error e => rw [h3] at hr; simp at hr
        | ok u3 =>
          rw [h3] at hr
          simp at hr
          rw [← hr]
  rw [hid]
  exact dropParse_prefixed u d (hexToken_no_colon u hu) (hexToken_ne_empty d hd)

/-- Witness for C5: a concrete all-succeeding create with two concrete
32-character hex tokens round-trips through the drop validation. -/
theorem create_then_drop_roundtrip_witness :
    dropParse
        (Resource.id
          { id := "/databases/" ++ "0123456789abcdef0123456789abcdef" ++ ":"
              ++ "fedcba9876543210fedcba9876543210"
            env :=
              [("FLYNN_POSTGRES", cfgW.systemPgsql),
               ("PGHOST", cfgW.serviceHost),
               ("PGUSER", "0123456789abcdef0123456789abcdef"),
               ("PGPASSWORD", "pw"),
               ("PGDATABASE", "fedcba9876543210fedcba9876543210"),
               ("DATABASE_URL",
                "postgres://" ++ "0123456789abcdef0123456789abcdef" ++ ":"
                  ++ "pw" ++ "@" ++ cfgW.serviceHost ++ ":5432/"
                  ++ "fedcba9876543210fedcba9876543210")] })
      = some ("0123456789abcdef0123456789abcdef",
              "fedcba9876543210fedcba9876543210") :=
  create_then_drop_roundtrip allOk cfgW
    "0123456789abcdef0123456789abcdef" "pw"
    "fedcba9876543210fedcba9876543210" _
    (by decide) (by decide) (by rfl)

theorem sqlQuotedIdent_of_quote_free (pre body : String)
    (hpre : dquoteChar ∉ pre.data) (hbody : dquoteChar ∉ body.data) :
    sqlQuotedIdent (pre ++ "\"" ++ body ++ "\"") = some (body, "") := by
  have hq : "\"".data = [dquoteChar] := by decide
  have hdata : (pre ++ "\"" ++ body ++ "\"").data
      = pre.data ++ dquoteChar :: (body.data ++ dquoteChar :: []) := by
    rw [string_data_append, string_data_append, string_data_append, hq]
    simp
  unfold sqlQuotedIdent
  rw [hdata, splitFirstAt_append_cons _ _ _ hpre]
  simp only [splitFirstAt_append_cons _ _ _ hbody]

/-- C9: the `DROP DATABASE` and `DROP USER` texts embed the caller-supplied
segment verbatim between two double quotes, with no escaping or character
restriction: for any quote-free segment the statement's quoted identifier
is the whole segment with nothing after the closing quote, while the
concrete segment `x";--` yields the identifier `x` followed by further SQL
text `;--"` — the structure of the executed statement changes. -/
theorem drop_statements_embed_segments_verbatim (d u : String) :
    ((dropDbStmt d).text = "DROP DATABASE \"" ++ d ++ "\""
     ∧ (dropUserStmt u).text = "DROP USER \"" ++ u ++ "\"")
    ∧ (dquoteChar ∉ d.data →
        sqlQuotedIdent (dropDbStmt d).text = some (d, ""))
    ∧ (dquoteChar ∉ u.data →
        sqlQuotedIdent (dropUserStmt u).text = some (u, ""))
    ∧ (sqlQuotedIdent (dropDbStmt "x\";--").text = some ("x", ";--\"")
       ∧ ("x\";--" : String) ≠ "x") := by
  refine ⟨⟨rfl, rfl⟩, fun hd => ?_, fun hu => ?_, by decide⟩
  · have hsplit : "DROP DATABASE \"" = "DROP DATABASE " ++ "\"" := by decide
    have htext : (dropDbStmt d).text
        = "DROP DATABASE " ++ "\"" ++ d ++ "\"" := by
      show "DROP DATABASE \"" ++ d ++ "\"" = _
      rw [hsplit]
    rw [htext]
    exact sqlQuotedIdent_of_quote_free "DROP DATABASE " d (by decide) hd
  · have hsplit : "DROP USER \"" = "DROP USER " ++ "\"" := by decide
    have htext : (dropUserStmt u).text
        = "DROP USER " ++ "\"" ++ u ++ "\"" := by
      show "DROP USER \"" ++ u ++ "\"" = _
      rw [hsplit]
    rw [htext]
    exact sqlQuotedIdent_of_quote_free "DROP USER " u (by decide) hu

/-- Witness for C9: on quote-free segments the statements carry exactly the
segment as their quoted identifier. -/
theorem drop_statements_embed_segments_witness :
    sqlQuotedIdent (dropDbStmt "mydb").text = some ("mydb", "")
    ∧ sqlQuotedIdent (dropUserStmt "myrole").text = some ("myrole", "") :=
  ⟨(drop_statements_embed_segments_verbatim "mydb" "myrole").2.1 (by decide),
   (drop_statements_embed_segments_verbatim "mydb" "myrole").2.2.1 (by decide)⟩

end PgProvider
